import Mathlib

/-!
Verification development for the API key management system.

The repository manages API keys with attached time-bound subscriptions,
JWT admin sessions with a token blacklist (revocation set), and a set of
HTTP endpoints (login, refresh, logout, subscription activate / renew /
cancel, maintenance sweep).  Two sibling implementations coexist: a
Next.js variant (src/admin/.../route.ts, src/api-keys/jwt.ts,
src/api-keys/utils.ts, the middleware in src/unnamed/part_004) and an
Express variant (src/unnamed/part_005 backed by src/database/db.js).

Embedding conventions:
- instants are integers counted in seconds since the epoch; a calendar
  day added by JavaScript setDate is modelled as 86400 seconds;
- a JWT is modelled as an abstract record carrying its literal string
  (the blacklist key), its payload, and a flag meaning that signature
  verification succeeds; jwt.verify is then a pure function of the
  record and the current instant;
- the JSON database is a record of lists; reads are List.find?, keyed
  updates map over the matching entry (keys are unique in the JSON
  object store, so this coincides with the point update of the source);
- HTTP envelopes are dropped: every endpoint is a function from current
  instant, request data and database state to a typed result paired
  with the successor state.
-/

namespace AKMS

/-- Instants in seconds since the epoch. -/
abbrev Instant := Int

/-- One calendar day, in seconds (models the setDate day increments). -/
def dayS : Int := 86400

/-- src/database/db.js api-keys.json records (also the prisma ApiKey rows):
`id` is the primary key used by the Next.js variant, `uid` the stable
public identifier used by the Express variant, `keyValue` the secret. -/
structure ApiKey where
  id : String
  uid : String
  keyValue : String
  name : String
  type : String
  isActive : Bool
  usageCount : Int
  deriving Repr, DecidableEq

/-- src/database/db.js subscriptions.json records (also the prisma
Subscription rows): `apiKeyUid` is the owning key of the Express store,
`apiKeyId` the owning key of the prisma store. -/
structure Subscription where
  id : String
  apiKeyUid : String
  apiKeyId : String
  enabled : Bool
  status : String
  startDate : Instant
  endDate : Instant
  autoRenew : Bool
  price : Int
  currency : String
  renewalDate : Option Instant
  deriving Repr, DecidableEq

/-- jwt-blacklist.json entries: a revoked token string with the instant
until which the revocation is meaningful. -/
structure BlacklistEntry where
  token : String
  expiresAt : Instant
  deriving Repr, DecidableEq

/-- audit-logs.json entries (fields not read by the core are omitted). -/
structure AuditLog where
  apiKeyId : String
  action : String
  deriving Repr, DecidableEq

/-- payments.json entries (fields not read by the core are omitted). -/
structure Payment where
  subscriptionId : String
  amount : Int
  currency : String
  method : String
  status : String
  deriving Repr, DecidableEq

/-- The persisted state: the four entity collections plus the token
revocation set. -/
structure DbState where
  apiKeys : List ApiKey
  subscriptions : List Subscription
  payments : List Payment
  auditLogs : List AuditLog
  jwtBlacklist : List BlacklistEntry
  deriving Repr, DecidableEq

/-- Decoded JWT payload (src/api-keys/jwt.ts JwtPayload).  The Express
variant signs only `apiKeyUid` and `type`; its mints set `apiKeyId` to
the empty string, standing for the absent property.  `exp` is the
expiry claim stamped by jsonwebtoken from expiresIn. -/
structure JwtPayload where
  apiKeyId : String
  apiKeyUid : String
  type : String
  exp : Option Instant
  deriving Repr, DecidableEq

/-- A JWT as this model sees it: the literal string (used as the
blacklist key), the payload it decodes to, and whether the signature
checks out under the servers secret. -/
structure Token where
  str : String
  payload : JwtPayload
  sigOk : Bool
  deriving Repr, DecidableEq

/-- jwt.verify: succeeds exactly when the signature is valid and the
expiry claim, if present, is still in the future (src/api-keys/jwt.ts
verifyToken, src/unnamed/part_005 verifyToken; both return null on any
verification failure). -/
def verifyToken (now : Instant) (t : Token) : Option JwtPayload :=
  if t.sigOk && (match t.payload.exp with
                 | some e => decide (now < e)
                 | none => true) then
    some t.payload
  else
    none

/-- src/api-keys/utils.ts isSubscriptionExpired and the identical helper
in src/unnamed/part_005: `new Date() > endDate`, a strict comparison. -/
def isSubscriptionExpired (now : Instant) (endDate : Instant) : Bool :=
  decide (endDate < now)

/-- src/database/db.js isTokenBlacklisted: prune every entry whose
recorded expiry has passed (kept are those with `expiresAt > now`),
write the pruned set back, and report whether the token is among the
surviving entries. -/
def isTokenBlacklisted (now : Instant) (tok : String) (st : DbState) :
    Bool × DbState :=
  let validBlacklist := st.jwtBlacklist.filter (fun e => decide (now < e.expiresAt))
  (validBlacklist.any (fun e => e.token == tok),
   { st with jwtBlacklist := validBlacklist })

/-- src/api-keys/jwt.ts isTokenBlacklisted (prisma variant): look up the
unique entry for the token; absent means not revoked; an entry whose
expiry has passed (`now > expiresAt`) is deleted and treated as not
revoked; otherwise the token counts as revoked. -/
def isTokenBlacklistedP (now : Instant) (tok : String) (st : DbState) :
    Bool × DbState :=
  match st.jwtBlacklist.find? (fun e => e.token == tok) with
  | none => (false, st)
  | some e =>
    if e.expiresAt < now then
      (false, { st with jwtBlacklist :=
                  st.jwtBlacklist.filter (fun x => !(x.token == tok)) })
    else
      (true, st)

/-- src/database/db.js addToJwtBlacklist: append an entry expiring
`expiresIn` seconds from now (src/api-keys/jwt.ts blacklistToken writes
the same row after its own verification step, modelled separately). -/
def addToJwtBlacklist (tok : String) (expiresIn : Int) (now : Instant)
    (st : DbState) : DbState :=
  { st with jwtBlacklist := st.jwtBlacklist ++ [⟨tok, now + expiresIn⟩] }

/-- src/database/db.js findApiKeyByUid. -/
def findApiKeyByUid (uid : String) (st : DbState) : Option ApiKey :=
  st.apiKeys.find? (fun k => k.uid == uid)

/-- src/database/db.js findApiKeyByKeyValue. -/
def findApiKeyByKeyValue (keyValue : String) (st : DbState) : Option ApiKey :=
  st.apiKeys.find? (fun k => k.keyValue == keyValue)

/-- src/database/db.js findSubscriptionByApiKeyUid (the JSON store is an
object keyed by apiKeyUid; lookup is by that key). -/
def findSubscriptionByApiKeyUid (uid : String) (st : DbState) :
    Option Subscription :=
  st.subscriptions.find? (fun s => s.apiKeyUid == uid)

/-- src/database/db.js updateSubscription: merge the given field updates
into the record stored under apiKeyUid.  Keys of the JSON object are
unique, so updating every matching list entry coincides with the point
update of the source. -/
def updateSubscription (uid : String) (f : Subscription → Subscription)
    (st : DbState) : DbState :=
  { st with subscriptions :=
      st.subscriptions.map (fun s => if s.apiKeyUid == uid then f s else s) }

/-- src/database/db.js updateApiKey, specialised to the field updates the
embedded endpoints perform. -/
def updateApiKey (uid : String) (f : ApiKey → ApiKey) (st : DbState) :
    DbState :=
  { st with apiKeys :=
      st.apiKeys.map (fun k => if k.uid == uid then f k else k) }

/-- Payload minted by the Express generateToken for an admin session
(src/unnamed/part_005: `\x7b apiKeyUid, type: admin \x7d`, signed with
expiresIn 1h; the prisma id is not part of the Express payload and is
modelled as the empty string). -/
def mintAdminPayload (uid : String) (now : Instant) : JwtPayload :=
  { apiKeyId := "", apiKeyUid := uid, type := "admin", exp := some (now + 3600) }

/-- Payload minted by the Express generateRefreshToken
(src/unnamed/part_005, signed with expiresIn 7d). -/
def mintRefreshPayload (uid : String) (now : Instant) : JwtPayload :=
  { apiKeyId := "", apiKeyUid := uid, type := "refresh", exp := some (now + 604800) }

/-- Outcome of the Express admin-token gatekeeper authenticateAdmin
(src/unnamed/part_005 lines 148-169). -/
inductive AuthResult where
  | missingToken
  | blacklistedToken
  | invalidToken
  | ok (decoded : JwtPayload)
  deriving Repr, DecidableEq

/-- src/unnamed/part_005 authenticateAdmin: require a bearer token,
reject blacklisted tokens (BLACKLISTED_TOKEN), then verify and require
`type == admin` (both failures conflated into INVALID_TOKEN); on success
the request proceeds carrying the decoded payload.  The bearer-header
extraction is abstracted into the Option argument. -/
def authenticateAdmin (now : Instant) (tok : Option Token) (st : DbState) :
    AuthResult × DbState :=
  match tok with
  | none => (.missingToken, st)
  | some t =>
    let res := isTokenBlacklisted now t.str st
    if res.1 then (.blacklistedToken, res.2)
    else
      match verifyToken now t with
      | none => (.invalidToken, res.2)
      | some decoded =>
        if decoded.type ≠ "admin" then (.invalidToken, res.2)
        else (.ok decoded, res.2)

/-- src/api-keys/jwt.ts verifyTokenAndCheckBlacklist: blacklist first
(null when revoked), then the pure verification. -/
def verifyTokenAndCheckBlacklist (now : Instant) (t : Token) (st : DbState) :
    Option JwtPayload × DbState :=
  let res := isTokenBlacklistedP now t.str st
  if res.1 then (none, res.2) else (verifyToken now t, res.2)

/-- Outcome of the Next.js admin-token gatekeeper validateAdminToken
(src/unnamed/part_004 lines 415-469). -/
inductive AdminTokenResult where
  | missingToken
  | invalidToken
  | insufficientPermissions
  | invalidAdmin
  | authorized (decoded : JwtPayload)
  deriving Repr, DecidableEq

/-- src/unnamed/part_004 validateAdminToken: bearer token required;
verifyTokenAndCheckBlacklist must decode (INVALID_TOKEN otherwise);
`type == admin` required (INSUFFICIENT_PERMISSIONS); the ApiKey row is
resolved by the embedded prisma id and must exist, be active and be an
admin key (INVALID_ADMIN); then the request is authorized. -/
def validateAdminToken (now : Instant) (tok : Option Token) (st : DbState) :
    AdminTokenResult × DbState :=
  match tok with
  | none => (.missingToken, st)
  | some t =>
    let res := verifyTokenAndCheckBlacklist now t st
    match res.1 with
    | none => (.invalidToken, res.2)
    | some decoded =>
      if decoded.type ≠ "admin" then (.insufficientPermissions, res.2)
      else
        match res.2.apiKeys.find? (fun k => k.id == decoded.apiKeyId) with
        | none => (.invalidAdmin, res.2)
        | some apiKey =>
          if !apiKey.isActive || apiKey.type ≠ "admin" then
            (.invalidAdmin, res.2)
          else
            (.authorized decoded, res.2)

/-- Outcome of POST /api/admin/auth/validate (login). -/
inductive LoginResult where
  | missingApiKey
  | invalidApiKey
  | inactiveApiKey
  | notAdminKey
  | subscriptionExpired
  | success (token refreshTok : JwtPayload)
  deriving Repr, DecidableEq

/-- src/unnamed/part_005 lines 175-229 (the Express login endpoint; the
Next.js POST in src/admin/auth/route.ts lines 11-130 has the same
logic): resolve the key by its secret value, require it active and of
admin type; if an enabled subscription is attached and expired, persist
`status = expired` and fail SUBSCRIPTION_EXPIRED; otherwise mint the
access and refresh payloads, append the admin_login audit entry and
increment the usage counter. -/
def validateEndpoint (now : Instant) (apiKey : Option String) (st : DbState) :
    LoginResult × DbState :=
  match apiKey with
  | none => (.missingApiKey, st)
  | some k =>
    match findApiKeyByKeyValue k st with
    | none => (.invalidApiKey, st)
    | some keyRecord =>
      if !keyRecord.isActive then (.inactiveApiKey, st)
      else if keyRecord.type ≠ "admin" then (.notAdminKey, st)
      else
        let subCheck :=
          match findSubscriptionByApiKeyUid keyRecord.uid st with
          | some sub => sub.enabled && isSubscriptionExpired now sub.endDate
          | none => false
        if subCheck then
          (.subscriptionExpired,
           updateSubscription keyRecord.uid (fun s => { s with status := "expired" }) st)
        else
          let tokenP := mintAdminPayload keyRecord.uid now
          let refreshP := mintRefreshPayload keyRecord.uid now
          let st1 :=
            { st with auditLogs :=
                st.auditLogs ++ [⟨keyRecord.uid, "admin_login"⟩] }
          let st2 :=
            updateApiKey keyRecord.uid
              (fun r => { r with usageCount := r.usageCount + 1 }) st1
          (.success tokenP refreshP, st2)

/-- Outcome of GET /api/admin/auth/refresh. -/
inductive RefreshResult where
  | missingRefreshToken
  | blacklistedToken
  | invalidRefreshToken
  | invalidAdmin
  | subscriptionExpired
  | success (token refreshTok : JwtPayload)
  deriving Repr, DecidableEq

/-- src/unnamed/part_005 lines 231-276 (the Express refresh endpoint;
src/admin/auth/route.ts GET has the same logic with the blacklist and
verification failures conflated into one error): reject blacklisted
tokens, verify and require `type == refresh`, resolve the key by uid and
require it active admin, require any enabled attached subscription to be
unexpired, then mint a fresh pair and blacklist the old refresh token for
7 days (rotation). -/
def refreshEndpoint (now : Instant) (tok : Option Token) (st : DbState) :
    RefreshResult × DbState :=
  match tok with
  | none => (.missingRefreshToken, st)
  | some t =>
    let res := isTokenBlacklisted now t.str st
    if res.1 then (.blacklistedToken, res.2)
    else
      match verifyToken now t with
      | none => (.invalidRefreshToken, res.2)
      | some decoded =>
        if decoded.type ≠ "refresh" then (.invalidRefreshToken, res.2)
        else
          match findApiKeyByUid decoded.apiKeyUid res.2 with
          | none => (.invalidAdmin, res.2)
          | some apiKey =>
            if !apiKey.isActive || apiKey.type ≠ "admin" then
              (.invalidAdmin, res.2)
            else
              let subCheck :=
                match findSubscriptionByApiKeyUid apiKey.uid res.2 with
                | some sub => sub.enabled && isSubscriptionExpired now sub.endDate
                | none => false
              if subCheck then (.subscriptionExpired, res.2)
              else
                (.success (mintAdminPayload apiKey.uid now)
                          (mintRefreshPayload apiKey.uid now),
                 addToJwtBlacklist t.str 604800 now res.2)

/-- Outcome of POST /api/admin/keys/:uid/subscription/renew. -/
inductive RenewResult where
  | apiKeyNotFound
  | subscriptionNotFound
  | success (endDate : Instant)
  deriving Repr, DecidableEq

/-- src/unnamed/part_005 lines 580-643 (the Express renew endpoint;
src/admin/keys/.../subscription renew route.ts has the same date
computation): the base date is the current end date, replaced by now
when the subscription is already expired; the new end date adds
durationDays days; the stored record gets the new end date and
`status = active`; a payment is appended and the key is reactivated if
it was inactive; an audit entry is appended. -/
def renewEndpoint (now : Instant) (uid : String) (durationDays : Int)
    (st : DbState) : RenewResult × DbState :=
  match findApiKeyByUid uid st with
  | none => (.apiKeyNotFound, st)
  | some apiKey =>
    match findSubscriptionByApiKeyUid uid st with
    | none => (.subscriptionNotFound, st)
    | some sub =>
      let currentEndDate :=
        if isSubscriptionExpired now sub.endDate then now else sub.endDate
      let newEndDate := currentEndDate + durationDays * dayS
      let st1 :=
        updateSubscription uid
          (fun s => { s with endDate := newEndDate, status := "active" }) st
      let st2 :=
        { st1 with payments :=
            st1.payments ++ [⟨sub.id, sub.price, sub.currency, "manual", "completed"⟩] }
      let st3 :=
        if !apiKey.isActive then
          updateApiKey uid (fun k => { k with isActive := true }) st2
        else st2
      let st4 :=
        { st3 with auditLogs := st3.auditLogs ++ [⟨uid, "renew_subscription"⟩] }
      (.success newEndDate, st4)

/-- Outcome of POST /api/admin/keys/:uid/subscription/cancel. -/
inductive CancelResult where
  | subscriptionNotFound
  | subscriptionNotActive
  | success (endDate : Instant)
  deriving Repr, DecidableEq

/-- src/unnamed/part_005 lines 645-686 (the Express cancel endpoint;
src/admin/keys/.../subscription/cancel/route.ts has the same update):
the subscription must exist and be enabled; the stored record gets
`autoRenew = false` and `status = cancelled` and nothing else changes;
an audit entry is appended. -/
def cancelEndpoint (uid : String) (st : DbState) : CancelResult × DbState :=
  match findSubscriptionByApiKeyUid uid st with
  | none => (.subscriptionNotFound, st)
  | some sub =>
    if !sub.enabled then (.subscriptionNotActive, st)
    else
      let st1 :=
        updateSubscription uid
          (fun s => { s with autoRenew := false, status := "cancelled" }) st
      let st2 :=
        { st1 with auditLogs := st1.auditLogs ++ [⟨uid, "cancel_subscription"⟩] }
      (.success sub.endDate, st2)

/-- Guard of the maintenance sweep: enabled, still marked active, and
past its end date (src/api-keys/utils.ts checkExpiredSubscriptions
findMany where-clause: `enabled && status == active && endDate < now`). -/
def expiredGuard (now : Instant) (s : Subscription) : Bool :=
  s.enabled && s.status == "active" && decide (s.endDate < now)

/-- One iteration of the sweep loop over a selected subscription
(src/api-keys/utils.ts checkExpiredSubscriptions lines 274-302): set the
subscription status to expired, deactivate the owning ApiKey, append the
subscription_expired audit entry. -/
def expireOne (st : DbState) (sub : Subscription) : DbState :=
  { st with
    subscriptions :=
      st.subscriptions.map
        (fun s => if s.id == sub.id then { s with status := "expired" } else s),
    apiKeys :=
      st.apiKeys.map
        (fun k => if k.id == sub.apiKeyId then { k with isActive := false } else k),
    auditLogs := st.auditLogs ++ [⟨sub.apiKeyId, "subscription_expired"⟩] }

/-- src/api-keys/utils.ts checkExpiredSubscriptions (lines 243-315): the
selection is computed once from the incoming state, then each selected
record is expired in turn.  The returned counters of the source (all
equal to the selection length) are not modelled. -/
def checkExpiredSubscriptions (now : Instant) (st : DbState) : DbState :=
  (st.subscriptions.filter (expiredGuard now)).foldl expireOne st

/-- src/api-keys/jwt.ts blacklistToken: the token must verify (otherwise
the thrown error propagates, modelled as none); then the blacklist row
expiring `expiresIn` seconds from now is created.  The token string is
the unique key of the prisma jwtBlacklist table (the same file reads it
with findUnique and deletes by token), so the create throws a
unique-constraint error when a row for this token already exists; that
error propagates too (none). -/
def blacklistToken (now : Instant) (t : Token) (expiresIn : Int)
    (st : DbState) : Option DbState :=
  match verifyToken now t with
  | none => none
  | some _ =>
    if st.jwtBlacklist.any (fun e => e.token == t.str) then none
    else some (addToJwtBlacklist t.str expiresIn now st)

/-- src/api-keys/jwt.ts logout: verify the token (throw on failure),
compute the remaining lifetime from the exp claim (3600 when absent) and
blacklist the token for that long. -/
def logout (now : Instant) (t : Token) (st : DbState) : Option DbState :=
  match verifyToken now t with
  | none => none
  | some decoded =>
    let expiresIn :=
      match decoded.exp with
      | some e => e - now
      | none => 3600
    blacklistToken now t expiresIn st

/-- Outcome of DELETE /api/admin/auth/logout (src/admin/auth/route.ts
lines 228-261). -/
inductive LogoutResult where
  | missingToken
  | internalError
  | success
  deriving Repr, DecidableEq

/-- src/admin/auth/route.ts DELETE handler: bearer token required; then
blacklistToken with its default expiresIn of 3600; a throw from
blacklistToken (invalid or expired token, or a row for the token already
in the table) is caught and answered with INTERNAL_ERROR. -/
def deleteLogout (now : Instant) (tok : Option Token) (st : DbState) :
    LogoutResult × DbState :=
  match tok with
  | none => (.missingToken, st)
  | some t =>
    match blacklistToken now t 3600 st with
    | none => (.internalError, st)
    | some st1 => (.success, st1)

/-- Minimal model of a JavaScript Promise object as seen by synchronous
property accesses: the eventual value is carried but not observable. -/
structure JsPromise (α : Type) where
  pending : α
  deriving Repr, DecidableEq

/-- An object reference is truthy in JavaScript. -/
def JsPromise.truthy {α : Type} (_ : JsPromise α) : Bool := true

/-- Property access `promise.type`: a Promise has no such own property,
so the read yields undefined. -/
def JsPromise.typeProp {α : Type} (_ : JsPromise α) : Option String := none

/-- src/api-keys/jwt.ts refreshToken (lines 182-222), embedded with its
missing await: `verifyTokenAndCheckBlacklist(refreshTokenStr)` is not
awaited, so `decoded` is the Promise object itself (its body still runs,
so the opportunistic blacklist pruning still happens).  The guard
`!decoded || decoded.type !== 'refresh'` therefore tests a truthy object
whose type property is undefined; the continuation (key lookup,
subscription check, minting, rotation) is written out as in the source
below the guard. -/
def refreshTokenJs (now : Instant) (t : Token) (st : DbState) :
    Option (JwtPayload × JwtPayload) × DbState :=
  let launched := verifyTokenAndCheckBlacklist now t st
  let decoded : JsPromise (Option JwtPayload) := ⟨launched.1⟩
  if !decoded.truthy || decoded.typeProp ≠ some "refresh" then
    (none, launched.2)
  else
    match launched.2.apiKeys.find? (fun k => k.id == t.payload.apiKeyId) with
    | none => (none, launched.2)
    | some apiKey =>
      if !apiKey.isActive then (none, launched.2)
      else
        let subCheck :=
          match launched.2.subscriptions.find? (fun s => s.apiKeyId == apiKey.id) with
          | some sub => sub.enabled && isSubscriptionExpired now sub.endDate
          | none => false
        if subCheck then (none, launched.2)
        else
          (some (mintAdminPayload apiKey.uid now, mintRefreshPayload apiKey.uid now),
           addToJwtBlacklist t.str 604800 now launched.2)

/-! Concrete sample data used to evaluate the endpoints on closed inputs. -/

/-- An active admin key. -/
def gkKey : ApiKey :=
  ⟨"k1", "u1", "KV-1", "Key One", "admin", true, 0⟩

/-- An enabled subscription of `gkKey`, still marked active, whose end
date 1000 is in the past once now exceeds 1000. -/
def gkSub : Subscription :=
  ⟨"s1", "u1", "k1", true, "active", 0, 1000, false, 50, "BRL", none⟩

/-- State holding `gkKey` with its subscription and empty collections. -/
def gkState : DbState :=
  ⟨[gkKey], [gkSub], [], [], []⟩

/-- A valid (signature ok, unexpired) admin access token for `gkKey`. -/
def gkToken : Token :=
  ⟨"tok1", ⟨"k1", "u1", "admin", some 5000⟩, true⟩

/-- An inactive admin key. -/
def iaKey : ApiKey :=
  ⟨"k2", "u2", "KV-2", "Key Two", "admin", false, 0⟩

/-- State holding only the inactive key `iaKey`. -/
def iaState : DbState :=
  ⟨[iaKey], [], [], [], []⟩

/-- A valid admin access token for the inactive key `iaKey`. -/
def iaToken : Token :=
  ⟨"tok2", ⟨"k2", "u2", "admin", some 5000⟩, true⟩

/-- An access token whose exp claim 100 has passed at now = 200. -/
def exTok : Token :=
  ⟨"tok3", ⟨"k1", "u1", "admin", some 100⟩, true⟩

/-- A valid admin access token with exp claim 4000. -/
def vTok : Token :=
  ⟨"tok4", ⟨"k1", "u1", "admin", some 4000⟩, true⟩

/-- The empty state. -/
def emptySt : DbState :=
  ⟨[], [], [], [], []⟩

/-- State whose blacklist already holds a row for `vTok`. -/
def dupSt : DbState :=
  ⟨[], [], [], [], [⟨"tok4", 5000⟩]⟩

/-- A valid refresh token for `gkKey` (exp claim 700). -/
def rfTok : Token :=
  ⟨"rt1", ⟨"", "u1", "refresh", some 700⟩, true⟩

/-- State whose blacklist holds an unexpired entry for `rfTok`. -/
def blSt : DbState :=
  ⟨[gkKey], [], [], [], [⟨"rt1", 1000⟩]⟩

/-- State holding `gkKey` and an already-expired subscription record. -/
def c6St : DbState :=
  ⟨[gkKey], [⟨"s1", "u1", "k1", true, "expired", 0, 1000, false, 50, "BRL", none⟩],
   [], [], []⟩

/-! Helper lemmas. -/

/-- Finding under a predicate is stable under a keyed map update whose
update function preserves the predicate. -/
theorem find?_map_update {α : Type} (p : α → Bool) (f : α → α) (l : List α)
    (hf : ∀ a, p (f a) = p a) :
    (l.map (fun a => if p a then f a else a)).find? p = (l.find? p).map f := by
  induction l with
  | nil => rfl
  | cons a l ih =>
    by_cases h : p a = true
    · have h2 : p (f a) = true := by rw [hf]; exact h
      simp only [List.map_cons, if_pos h, List.find?_cons_of_pos _ h2,
        List.find?_cons_of_pos _ h, Option.map_some']
    · simp only [List.map_cons, if_neg h, List.find?_cons_of_neg _ h, ih]

/-- The pruning-read of the revocation set does not touch the key table. -/
theorem isTokenBlacklistedP_apiKeys (now : Instant) (tok : String) (st : DbState) :
    (isTokenBlacklistedP now tok st).2.apiKeys = st.apiKeys := by
  unfold isTokenBlacklistedP
  split
  · rfl
  · split <;> rfl

/-- Expiry is the strict comparison of the source helper. -/
theorem isSubscriptionExpired_iff (now e : Instant) :
    isSubscriptionExpired now e = true ↔ e < now := by
  simp [isSubscriptionExpired]

/-- The expired-or-keep base date of the renew computation is the maximum
of now and the current end date. -/
theorem ite_expired_eq_max (now e : Instant) :
    (if isSubscriptionExpired now e then now else e) = max now e := by
  by_cases h : e < now
  · simp [isSubscriptionExpired, h, max_eq_left (le_of_lt h)]
  · have hle : now ≤ e := le_of_not_lt h
    simp [isSubscriptionExpired, h, max_eq_right hle]

/-- The subscriptions component of one sweep iteration. -/
theorem expireOne_subscriptions (st : DbState) (sub : Subscription) :
    (expireOne st sub).subscriptions
      = st.subscriptions.map
          (fun s => if s.id == sub.id then { s with status := "expired" } else s) :=
  rfl

/-- Every subscription surviving the sweep loop either carries the
expired status or is an untouched original whose id is hit by no
selected record. -/
theorem mem_foldl_expireOne :
    ∀ (l : List Subscription) (st : DbState) (s' : Subscription),
      s' ∈ (l.foldl expireOne st).subscriptions →
      s'.status = "expired"
      ∨ (s' ∈ st.subscriptions ∧ ∀ e ∈ l, (s'.id == e.id) = false) := by
  intro l
  induction l with
  | nil =>
    intro st s' h
    exact Or.inr ⟨h, by intro e he; cases he⟩
  | cons e rest ih =>
    intro st s' h
    rcases ih (expireOne st e) s' h with hexp | ⟨hmem, hrest⟩
    · exact Or.inl hexp
    · rw [expireOne_subscriptions] at hmem
      rcases List.mem_map.mp hmem with ⟨s, hs, hg⟩
      by_cases hid : (s.id == e.id) = true
      · rw [if_pos hid] at hg
        exact Or.inl (by rw [← hg])
      · rw [if_neg hid] at hg
        subst hg
        refine Or.inr ⟨hs, ?_⟩
        intro x hx
        rcases List.mem_cons.mp hx with hx | hx
        · subst hx
          exact Bool.eq_false_iff.mpr hid
        · exact hrest x hx

/-- After one sweep, no surviving subscription still satisfies the
selection guard. -/
theorem checkExpired_guard_false (now : Instant) (st : DbState) :
    ∀ s' ∈ (checkExpiredSubscriptions now st).subscriptions,
      expiredGuard now s' = false := by
  intro s' hs'
  rcases mem_foldl_expireOne _ st s' hs' with hexp | ⟨hmem, hall⟩
  · simp [expiredGuard, hexp,
      show (("expired" : String) == "active") = false from by decide]
  · cases hguard : expiredGuard now s'
    · rfl
    · have hfil : s' ∈ st.subscriptions.filter (expiredGuard now) :=
        List.mem_filter.mpr ⟨hmem, hguard⟩
      have hfalse := hall s' hfil
      simp at hfalse

/-!
Claim theorems.
-/

/-- C6: the maintenance sweep checkExpiredSubscriptions is idempotent:
running it twice from any state and instant yields exactly the state of
one run, and running it on a state whose subscription records are all
already expired changes nothing at all. -/
theorem C6_checkAndExpire_idempotent :
    (∀ (now : Instant) (st : DbState),
        checkExpiredSubscriptions now (checkExpiredSubscriptions now st)
          = checkExpiredSubscriptions now st)
    ∧ (∀ (now : Instant) (st : DbState),
        (∀ s ∈ st.subscriptions, s.status = "expired") →
        checkExpiredSubscriptions now st = st) := by
  constructor
  · intro now st
    have hfil :
        (checkExpiredSubscriptions now st).subscriptions.filter (expiredGuard now)
          = [] :=
      List.filter_eq_nil_iff.mpr
        (fun s' hs' => by simp [checkExpired_guard_false now st s' hs'])
    show ((checkExpiredSubscriptions now st).subscriptions.filter
            (expiredGuard now)).foldl expireOne (checkExpiredSubscriptions now st)
        = checkExpiredSubscriptions now st
    rw [hfil]
    rfl
  · intro now st hall
    have hfil : st.subscriptions.filter (expiredGuard now) = [] :=
      List.filter_eq_nil_iff.mpr
        (fun s hs => by
          simp [expiredGuard, hall s hs,
            show (("expired" : String) == "active") = false from by decide])
    show (st.subscriptions.filter (expiredGuard now)).foldl expireOne st = st
    rw [hfil]
    rfl

/-- Witness for C6: on a concrete already-expired record the sweep is a
no-op, and the double run equals the single run on the concrete mixed
state. -/
theorem C6_checkAndExpire_idempotent_witness :
    checkExpiredSubscriptions 2000 c6St = c6St
    ∧ checkExpiredSubscriptions 2000 (checkExpiredSubscriptions 2000 gkState)
        = checkExpiredSubscriptions 2000 gkState :=
  ⟨C6_checkAndExpire_idempotent.2 2000 c6St (by decide),
   C6_checkAndExpire_idempotent.1 2000 gkState⟩

/-- C8: expiry comparisons use the strict test now > endDate; a
subscription whose end date equals the current instant is still valid,
and in particular a login at exactly the end date does not fail with the
subscription-expired error. -/
theorem C8_strict_expiry_boundary :
    (∀ now e : Instant, isSubscriptionExpired now e = true ↔ e < now)
    ∧ (∀ t : Instant, isSubscriptionExpired t t = false)
    ∧ (∀ (st : DbState) (k : String) (keyRecord : ApiKey) (sub : Subscription),
        findApiKeyByKeyValue k st = some keyRecord →
        keyRecord.isActive = true →
        keyRecord.type = "admin" →
        findSubscriptionByApiKeyUid keyRecord.uid st = some sub →
        (validateEndpoint sub.endDate (some k) st).1 ≠ .subscriptionExpired) := by
  refine ⟨fun now e => isSubscriptionExpired_iff now e,
          fun t => by simp [isSubscriptionExpired], ?_⟩
  intro st k keyRecord sub hfind hact hty hsub
  simp [validateEndpoint, hfind, hact, hty, hsub, isSubscriptionExpired]

/-- Witness for C8 at the concrete boundary instant 1000 = endDate of
the sample subscription. -/
theorem C8_strict_expiry_boundary_witness :
    isSubscriptionExpired 1000 1000 = false
    ∧ (validateEndpoint 1000 (some "KV-1") gkState).1 ≠ .subscriptionExpired :=
  ⟨C8_strict_expiry_boundary.2.1 1000,
   C8_strict_expiry_boundary.2.2 gkState "KV-1" gkKey gkSub
     (by decide) (by decide) (by decide) (by decide)⟩

/-- C10: the library refreshToken of src/api-keys/jwt.ts never issues a
token pair: the missing await leaves the decoded value a Promise object,
the type check fails, and every call returns null. -/
theorem C10_refreshToken_always_null :
    ∀ (now : Instant) (t : Token) (st : DbState),
      (refreshTokenJs now t st).1 = none := by
  intro now t st
  simp [refreshTokenJs, JsPromise.truthy, JsPromise.typeProp]

/-- C2: renew computes the new end date as max(now, current end date)
plus the requested days — the stored record gets exactly that end date
with status set back to active; for an unexpired subscription this is
endDate + durationDays days, for an expired one now + durationDays
days. -/
theorem C2_renew_end_date :
    ∀ (now : Instant) (uid : String) (durationDays : Int) (st : DbState)
      (apiKey : ApiKey) (sub : Subscription),
      findApiKeyByUid uid st = some apiKey →
      findSubscriptionByApiKeyUid uid st = some sub →
      (renewEndpoint now uid durationDays st).1
          = .success (max now sub.endDate + durationDays * dayS)
      ∧ findSubscriptionByApiKeyUid uid (renewEndpoint now uid durationDays st).2
          = some { sub with endDate := max now sub.endDate + durationDays * dayS,
                            status := "active" }
      ∧ (now ≤ sub.endDate →
          max now sub.endDate + durationDays * dayS
            = sub.endDate + durationDays * dayS)
      ∧ (sub.endDate < now →
          max now sub.endDate + durationDays * dayS
            = now + durationDays * dayS) := by
  intro now uid D st apiKey sub hkey hsub
  have hmax : (if isSubscriptionExpired now sub.endDate then now else sub.endDate)
      = max now sub.endDate := ite_expired_eq_max now sub.endDate
  refine ⟨?_, ?_, ?_, ?_⟩
  · simp only [renewEndpoint, hkey, hsub, hmax]
  · have hupd :
        (renewEndpoint now uid D st).2.subscriptions
          = st.subscriptions.map
              (fun s => if s.apiKeyUid == uid then
                  { s with endDate := max now sub.endDate + D * dayS,
                           status := "active" }
                else s) := by
      by_cases hact : apiKey.isActive <;>
        simp [renewEndpoint, hkey, hsub, hmax, updateSubscription, updateApiKey,
          hact]
    unfold findSubscriptionByApiKeyUid
    rw [hupd, find?_map_update (fun (s : Subscription) => s.apiKeyUid == uid)
      (fun s => { s with endDate := max now sub.endDate + D * dayS,
                         status := "active" })
      st.subscriptions (fun _ => rfl)]
    have h := hsub
    unfold findSubscriptionByApiKeyUid at h
    rw [h]
    rfl
  · intro h
    rw [max_eq_right h]
  · intro h
    rw [max_eq_left (le_of_lt h)]

/-- Witness for C2: renewing the sample unexpired subscription (end
date 1000, now 500) by 30 days. -/
theorem C2_renew_end_date_witness :
    (renewEndpoint 500 "u1" 30 gkState).1
        = .success (max 500 gkSub.endDate + 30 * dayS)
    ∧ findSubscriptionByApiKeyUid "u1" (renewEndpoint 500 "u1" 30 gkState).2
        = some { gkSub with endDate := max 500 gkSub.endDate + 30 * dayS,
                            status := "active" }
    ∧ ((500 : Instant) ≤ gkSub.endDate →
        max 500 gkSub.endDate + 30 * dayS = gkSub.endDate + 30 * dayS)
    ∧ (gkSub.endDate < (500 : Instant) →
        max 500 gkSub.endDate + 30 * dayS = 500 + 30 * dayS) :=
  C2_renew_end_date 500 "u1" 30 gkState gkKey gkSub (by decide) (by decide)

/-- C4: a login with a correct, active admin key whose attached enabled
subscription is past its end date fails with the subscription-expired
error, mints no tokens, persists the expired status on the stored
subscription, and leaves the key table untouched. -/
theorem C4_login_expired_subscription :
    ∀ (now : Instant) (k : String) (st : DbState) (keyRecord : ApiKey)
      (sub : Subscription),
      findApiKeyByKeyValue k st = some keyRecord →
      keyRecord.isActive = true →
      keyRecord.type = "admin" →
      findSubscriptionByApiKeyUid keyRecord.uid st = some sub →
      sub.enabled = true →
      sub.endDate < now →
      (validateEndpoint now (some k) st).1 = .subscriptionExpired
      ∧ findSubscriptionByApiKeyUid keyRecord.uid (validateEndpoint now (some k) st).2
          = some { sub with status := "expired" }
      ∧ (validateEndpoint now (some k) st).2.apiKeys = st.apiKeys := by
  intro now k st keyRecord sub hfind hact hty hsub hen hexp
  refine ⟨?_, ?_, ?_⟩
  · simp [validateEndpoint, hfind, hact, hty, hsub, hen, isSubscriptionExpired,
      hexp]
  · have hupd :
        (validateEndpoint now (some k) st).2.subscriptions
          = st.subscriptions.map
              (fun s => if s.apiKeyUid == keyRecord.uid then
                  { s with status := "expired" } else s) := by
      simp [validateEndpoint, hfind, hact, hty, hsub, hen, isSubscriptionExpired,
        hexp, updateSubscription]
    unfold findSubscriptionByApiKeyUid
    rw [hupd,
      find?_map_update (fun (s : Subscription) => s.apiKeyUid == keyRecord.uid)
        (fun s => { s with status := "expired" })
        st.subscriptions (fun _ => rfl)]
    have h := hsub
    unfold findSubscriptionByApiKeyUid at h
    rw [h]
    rfl
  · simp [validateEndpoint, hfind, hact, hty, hsub, hen, isSubscriptionExpired,
      hexp, updateSubscription]

/-- Witness for C4: login with the sample key at now = 2000, past the
subscription end date 1000. -/
theorem C4_login_expired_subscription_witness :
    (validateEndpoint 2000 (some "KV-1") gkState).1 = .subscriptionExpired
    ∧ findSubscriptionByApiKeyUid gkKey.uid (validateEndpoint 2000 (some "KV-1") gkState).2
        = some { gkSub with status := "expired" }
    ∧ (validateEndpoint 2000 (some "KV-1") gkState).2.apiKeys = gkState.apiKeys :=
  C4_login_expired_subscription 2000 "KV-1" gkState gkKey gkSub
    (by decide) (by decide) (by decide) (by decide) (by decide) (by decide)

/-- C7: cancelling an enabled subscription succeeds, sets autoRenew to
false and status to cancelled, changes neither the end date of the
record nor the key table, and the record stays unexpired up to its
original end date. -/
theorem C7_cancel_frame :
    ∀ (uid : String) (st : DbState) (sub : Subscription),
      findSubscriptionByApiKeyUid uid st = some sub →
      sub.enabled = true →
      (cancelEndpoint uid st).1 = .success sub.endDate
      ∧ findSubscriptionByApiKeyUid uid (cancelEndpoint uid st).2
          = some { sub with autoRenew := false, status := "cancelled" }
      ∧ (cancelEndpoint uid st).2.apiKeys = st.apiKeys
      ∧ ∀ t : Instant, t ≤ sub.endDate →
          isSubscriptionExpired t sub.endDate = false := by
  intro uid st sub hsub hen
  refine ⟨?_, ?_, ?_, ?_⟩
  · simp [cancelEndpoint, hsub, hen]
  · have hupd :
        (cancelEndpoint uid st).2.subscriptions
          = st.subscriptions.map
              (fun s => if s.apiKeyUid == uid then
                  { s with autoRenew := false, status := "cancelled" } else s) := by
      simp [cancelEndpoint, hsub, hen, updateSubscription]
    unfold findSubscriptionByApiKeyUid
    rw [hupd, find?_map_update (fun (s : Subscription) => s.apiKeyUid == uid)
      (fun s => { s with autoRenew := false, status := "cancelled" })
      st.subscriptions (fun _ => rfl)]
    have h := hsub
    unfold findSubscriptionByApiKeyUid at h
    rw [h]
    rfl
  · simp [cancelEndpoint, hsub, hen, updateSubscription]
  · intro t ht
    exact decide_eq_false (not_lt.mpr ht)

/-- Witness for C7: cancelling the sample enabled subscription. -/
theorem C7_cancel_frame_witness :
    (cancelEndpoint "u1" gkState).1 = .success gkSub.endDate
    ∧ findSubscriptionByApiKeyUid "u1" (cancelEndpoint "u1" gkState).2
        = some { gkSub with autoRenew := false, status := "cancelled" }
    ∧ (cancelEndpoint "u1" gkState).2.apiKeys = gkState.apiKeys
    ∧ ∀ t : Instant, t ≤ gkSub.endDate →
        isSubscriptionExpired t gkSub.endDate = false :=
  C7_cancel_frame "u1" gkState gkSub (by decide) (by decide)

/-- C1 counterexample: at now = 2000 the sample admin token is
authorized by both gatekeepers although the resolved key carries an
enabled subscription whose end date 1000 is strictly past — the claimed
SubscriptionExpired failure does not happen. -/
theorem C1_counterexample_authorized_despite_expired_subscription :
    (validateAdminToken 2000 (some gkToken) gkState).1
        = .authorized gkToken.payload
    ∧ (authenticateAdmin 2000 (some gkToken) gkState).1 = .ok gkToken.payload
    ∧ gkSub.enabled = true
    ∧ isSubscriptionExpired 2000 gkSub.endDate = true
    ∧ findSubscriptionByApiKeyUid gkKey.uid gkState = some gkSub := by
  decide

/-- C1 amended: the admin-token Gatekeeper performs no subscription
check: any request whose token passes the blacklist, verification and
admin-type checks (and, in the Next.js middleware, whose key resolves
active and admin) is authorized, with no condition whatsoever on the
subscription table — in particular when the key carries an enabled
subscription whose end date is strictly past.  Neither gatekeeper result
type even has a subscription-expired outcome. -/
theorem C1_amended_gatekeeper_no_subscription_check :
    (∀ (now : Instant) (t : Token) (st : DbState) (d : JwtPayload)
        (key : ApiKey),
        (isTokenBlacklistedP now t.str st).1 = false →
        verifyToken now t = some d →
        d.type = "admin" →
        st.apiKeys.find? (fun k => k.id == d.apiKeyId) = some key →
        key.isActive = true →
        key.type = "admin" →
        (validateAdminToken now (some t) st).1 = .authorized d)
    ∧ (∀ (now : Instant) (t : Token) (st : DbState) (d : JwtPayload),
        (st.jwtBlacklist.filter (fun e => decide (now < e.expiresAt))).any
            (fun e => e.token == t.str) = false →
        verifyToken now t = some d →
        d.type = "admin" →
        (authenticateAdmin now (some t) st).1 = .ok d) := by
  constructor
  · intro now t st d key hbl hv hd hk hact hty
    simp [validateAdminToken, verifyTokenAndCheckBlacklist, hbl, hv, hd,
      isTokenBlacklistedP_apiKeys, hk, hact, hty]
  · intro now t st d hbl hv hd
    simp [authenticateAdmin, isTokenBlacklisted, hbl, hv, hd]

/-- Witness for the amended C1 statement: at now = 2000 both gatekeepers
authorize the sample token although the resolved key has an enabled
subscription expired at 1000. -/
theorem C1_amended_gatekeeper_no_subscription_check_witness :
    (validateAdminToken 2000 (some gkToken) gkState).1
        = .authorized gkToken.payload
    ∧ (authenticateAdmin 2000 (some gkToken) gkState).1 = .ok gkToken.payload :=
  ⟨C1_amended_gatekeeper_no_subscription_check.1 2000 gkToken gkState
      gkToken.payload gkKey (by decide) (by decide) (by decide) (by decide)
      (by decide) (by decide),
   C1_amended_gatekeeper_no_subscription_check.2 2000 gkToken gkState
      gkToken.payload (by decide) (by decide) (by decide)⟩

/-- C5 counterexample: the Express gatekeeper authenticateAdmin never
resolves the key record, so a valid admin token whose underlying key is
inactive is authorized instead of failing. -/
theorem C5_counterexample_inactive_key_authorized :
    verifyToken 100 iaToken = some iaToken.payload
    ∧ iaState.apiKeys.find? (fun k => k.id == iaToken.payload.apiKeyId)
        = some iaKey
    ∧ iaKey.isActive = false
    ∧ (authenticateAdmin 100 (some iaToken) iaState).1 = .ok iaToken.payload := by
  decide

/-- C5 amended: only the Next.js middleware validateAdminToken resolves
the key; there a verified admin token over an inactive key fails with
the conflated INVALID_ADMIN error (the request is not authorized), while
authenticateAdmin lets it through. -/
theorem C5_amended_validateAdminToken_inactive :
    ∀ (now : Instant) (t : Token) (st : DbState) (d : JwtPayload)
      (apiKey : ApiKey),
      (isTokenBlacklistedP now t.str st).1 = false →
      verifyToken now t = some d →
      d.type = "admin" →
      st.apiKeys.find? (fun k => k.id == d.apiKeyId) = some apiKey →
      apiKey.isActive = false →
      (validateAdminToken now (some t) st).1 = .invalidAdmin := by
  intro now t st d apiKey hbl hv hd hfind hact
  simp [validateAdminToken, verifyTokenAndCheckBlacklist, hbl, hv, hd,
    isTokenBlacklistedP_apiKeys, hfind, hact]

/-- Witness for the amended C5 statement on the concrete inactive key. -/
theorem C5_amended_validateAdminToken_inactive_witness :
    (validateAdminToken 100 (some iaToken) iaState).1 = .invalidAdmin :=
  C5_amended_validateAdminToken_inactive 100 iaToken iaState iaToken.payload
    iaKey (by decide) (by decide) (by decide) (by decide) (by decide)

/-- Helper for C3: under the explicit success conditions of a refresh
call (not blacklisted, verifying refresh token, active admin key, no
enabled expired subscription), the call mints the new pair, and a repeat
call with the same token within the seven-day rotation window is
rejected as blacklisted. -/
theorem refresh_rotation_aux :
    ∀ (now1 now2 : Instant) (t : Token) (st : DbState) (d : JwtPayload)
      (key : ApiKey),
      (st.jwtBlacklist.filter (fun e => decide (now1 < e.expiresAt))).any
          (fun e => e.token == t.str) = false →
      verifyToken now1 t = some d →
      d.type = "refresh" →
      st.apiKeys.find? (fun k => k.uid == d.apiKeyUid) = some key →
      key.isActive = true →
      key.type = "admin" →
      (∀ sub, st.subscriptions.find? (fun s => s.apiKeyUid == key.uid)
          = some sub → ¬(sub.enabled = true ∧ sub.endDate < now1)) →
      now2 < now1 + 604800 →
      (refreshEndpoint now1 (some t) st).1
          = .success (mintAdminPayload key.uid now1)
                     (mintRefreshPayload key.uid now1)
      ∧ (refreshEndpoint now2 (some t)
            ((refreshEndpoint now1 (some t) st).2)).1 = .blacklistedToken := by
  intro now1 now2 t st d key hbl hv hd hk hact hty hsub hlt
  have e1 : refreshEndpoint now1 (some t) st
      = (.success (mintAdminPayload key.uid now1)
                  (mintRefreshPayload key.uid now1),
         addToJwtBlacklist t.str 604800 now1
           { st with jwtBlacklist :=
               st.jwtBlacklist.filter (fun e => decide (now1 < e.expiresAt)) }) := by
    rcases hs : st.subscriptions.find? (fun s => s.apiKeyUid == key.uid)
        with _ | sub
    · simp [refreshEndpoint, isTokenBlacklisted, hbl, hv, hd, findApiKeyByUid,
        hk, hact, hty, findSubscriptionByApiKeyUid, hs, addToJwtBlacklist]
    · have hchk := hsub sub hs
      simp [refreshEndpoint, isTokenBlacklisted, hbl, hv, hd, findApiKeyByUid,
        hk, hact, hty, findSubscriptionByApiKeyUid, hs, addToJwtBlacklist,
        isSubscriptionExpired, hchk]
  refine ⟨by rw [e1], ?_⟩
  rw [e1]
  have hflag : (isTokenBlacklisted now2 t.str
      (addToJwtBlacklist t.str 604800 now1
        { st with jwtBlacklist :=
            st.jwtBlacklist.filter (fun e => decide (now1 < e.expiresAt)) })).1
      = true := by
    simp only [isTokenBlacklisted, addToJwtBlacklist]
    refine List.any_eq_true.mpr ⟨⟨t.str, now1 + 604800⟩, ?_, by simp⟩
    refine List.mem_filter.mpr ⟨List.mem_append_right _ ?_, by simpa using hlt⟩
    exact List.mem_singleton.mpr rfl
  simp only [refreshEndpoint]
  rw [hflag]
  rfl

/-- C3: a refresh token with an unexpired entry in the revocation set is
rejected as blacklisted and mints nothing; and whenever a refresh call
succeeds, repeating it with the same token within the seven-day rotation
window is rejected as blacklisted, because the successful call revoked
the old refresh token. -/
theorem C3_refresh_rotation :
    (∀ (now : Instant) (t : Token) (st : DbState),
        (∃ e ∈ st.jwtBlacklist, e.token = t.str ∧ now < e.expiresAt) →
        (refreshEndpoint now (some t) st).1 = .blacklistedToken)
    ∧ (∀ (now1 now2 : Instant) (t : Token) (st : DbState) (a b : JwtPayload),
        (refreshEndpoint now1 (some t) st).1 = .success a b →
        now2 < now1 + 604800 →
        (refreshEndpoint now2 (some t)
            ((refreshEndpoint now1 (some t) st).2)).1 = .blacklistedToken) := by
  constructor
  · rintro now t st ⟨e, he, het, hexp⟩
    have hflag : (isTokenBlacklisted now t.str st).1 = true := by
      simp only [isTokenBlacklisted]
      exact List.any_eq_true.mpr
        ⟨e, List.mem_filter.mpr ⟨he, by simpa using hexp⟩, by simp [het]⟩
    simp only [refreshEndpoint]
    rw [hflag]
    rfl
  · intro now1 now2 t st a b h hlt
    by_cases hbl : (st.jwtBlacklist.filter
        (fun e => decide (now1 < e.expiresAt))).any
        (fun e => e.token == t.str) = true
    · exfalso
      have e : (refreshEndpoint now1 (some t) st).1 = .blacklistedToken := by
        simp only [refreshEndpoint]
        rw [show (isTokenBlacklisted now1 t.str st).1 = true from hbl]
        rfl
      rw [e] at h
      exact RefreshResult.noConfusion h
    · rw [Bool.not_eq_true] at hbl
      cases hv : verifyToken now1 t with
      | none =>
        exfalso
        have e : (refreshEndpoint now1 (some t) st).1 = .invalidRefreshToken := by
          simp [refreshEndpoint, isTokenBlacklisted, hbl, hv]
        rw [e] at h
        exact RefreshResult.noConfusion h
      | some d =>
        by_cases hd : d.type = "refresh"
        · cases hk : st.apiKeys.find? (fun k => k.uid == d.apiKeyUid) with
          | none =>
            exfalso
            have e : (refreshEndpoint now1 (some t) st).1 = .invalidAdmin := by
              simp [refreshEndpoint, isTokenBlacklisted, hbl, hv, hd,
                findApiKeyByUid, hk]
            rw [e] at h
            exact RefreshResult.noConfusion h
          | some key =>
            by_cases hia : (!key.isActive || decide (key.type ≠ "admin")) = true
            · exfalso
              simp only [Bool.or_eq_true, Bool.not_eq_true',
                decide_eq_true_eq] at hia
              have e : (refreshEndpoint now1 (some t) st).1 = .invalidAdmin := by
                simp [refreshEndpoint, isTokenBlacklisted, hbl, hv, hd,
                  findApiKeyByUid, hk, hia]
              rw [e] at h
              exact RefreshResult.noConfusion h
            · rw [Bool.not_eq_true] at hia
              simp only [Bool.or_eq_false_iff, Bool.not_eq_false,
                decide_eq_false_iff_not, not_not] at hia
              obtain ⟨hact0, hty⟩ := hia
              have hact : key.isActive = true := by simpa using hact0
              rcases hs : st.subscriptions.find?
                  (fun s => s.apiKeyUid == key.uid) with _ | sub
              · exact (refresh_rotation_aux now1 now2 t st d key hbl hv hd hk
                  hact hty
                  (fun sub0 hs0 => by
                    rw [hs] at hs0
                    exact Option.noConfusion hs0)
                  hlt).2
              · by_cases hchk : sub.enabled = true ∧ sub.endDate < now1
                · exfalso
                  have e : (refreshEndpoint now1 (some t) st).1
                      = .subscriptionExpired := by
                    simp [refreshEndpoint, isTokenBlacklisted, hbl, hv, hd,
                      findApiKeyByUid, hk, hact, hty,
                      findSubscriptionByApiKeyUid, hs, isSubscriptionExpired,
                      hchk.1, hchk.2]
                  rw [e] at h
                  exact RefreshResult.noConfusion h
                · exact (refresh_rotation_aux now1 now2 t st d key hbl hv hd hk
                    hact hty
                    (fun sub0 hs0 => by
                      rw [hs] at hs0
                      injection hs0 with hq
                      subst hq
                      exact hchk)
                    hlt).2
        · exfalso
          have e : (refreshEndpoint now1 (some t) st).1
              = .invalidRefreshToken := by
            simp [refreshEndpoint, isTokenBlacklisted, hbl, hv, hd]
          rw [e] at h
          exact RefreshResult.noConfusion h

/-- Witness for C3: the concrete two-call rotation on the sample state
(first refresh at 500 succeeds, the repeat at 600 is rejected as
blacklisted), and the direct rejection of a token with an unexpired
revocation entry. -/
theorem C3_refresh_rotation_witness :
    (refreshEndpoint 600 (some rfTok)
        ((refreshEndpoint 500 (some rfTok) gkState).2)).1 = .blacklistedToken
    ∧ (refreshEndpoint 500 (some rfTok) blSt).1 = .blacklistedToken :=
  ⟨C3_refresh_rotation.2 500 600 rfTok gkState
      (mintAdminPayload gkKey.uid 500) (mintRefreshPayload gkKey.uid 500)
      (by decide) (by decide),
   C3_refresh_rotation.1 500 rfTok blSt (by decide)⟩

/-- C9 counterexample: logging out with an already-expired access token
is an error, not an idempotent success: jwt.ts logout throws (none) and
the DELETE route answers INTERNAL_ERROR. -/
theorem C9_counterexample_expired_token_logout_fails :
    verifyToken 200 exTok = none
    ∧ logout 200 exTok emptySt = none
    ∧ (deleteLogout 200 (some exTok) emptySt).1 = .internalError := by
  decide

/-- C9 amended: logout succeeds only for a token that still verifies
and whose string is not yet in the revocation table — jwt.ts logout then
revokes it until its natural expiry (3600 seconds when the exp claim is
absent) and the DELETE route revokes it for a fixed hour.  A call with
an expired or invalid token fails (jwt.ts logout rethrows, the DELETE
route returns an internal error), and so does a repeated logout of the
same token, because the unique constraint on the blacklisted token
string makes the duplicate create throw; logout is therefore not
idempotent. -/
theorem C9_amended_logout_requires_valid_token :
    ∀ (now : Instant) (t : Token) (st : DbState),
      (∀ d : JwtPayload, verifyToken now t = some d →
        st.jwtBlacklist.any (fun e => e.token == t.str) = false →
        logout now t st
          = some { st with jwtBlacklist :=
              st.jwtBlacklist
                ++ [⟨t.str, match d.exp with
                            | some e => e
                            | none => now + 3600⟩] }
        ∧ deleteLogout now (some t) st
            = (.success,
               { st with jwtBlacklist :=
                   st.jwtBlacklist ++ [⟨t.str, now + 3600⟩] }))
      ∧ (verifyToken now t = none →
          logout now t st = none
          ∧ (deleteLogout now (some t) st).1 = .internalError)
      ∧ ((∃ e ∈ st.jwtBlacklist, e.token = t.str) →
          logout now t st = none
          ∧ (deleteLogout now (some t) st).1 = .internalError) := by
  intro now t st
  refine ⟨?_, ?_, ?_⟩
  · intro d hv hnodup
    constructor
    · simp only [logout, hv, blacklistToken, hnodup, addToJwtBlacklist]
      cases hde : d.exp with
      | some e =>
        have harith : now + (e - now) = e := by ring
        simp [hnodup, hde, harith]
      | none => simp [hnodup, hde]
    · simp [deleteLogout, blacklistToken, hv, hnodup, addToJwtBlacklist]
  · intro hv
    exact ⟨by simp [logout, hv], by simp [deleteLogout, blacklistToken, hv]⟩
  · rintro ⟨e, he, het⟩
    have hdup : st.jwtBlacklist.any (fun x => x.token == t.str) = true :=
      List.any_eq_true.mpr ⟨e, he, by simp [het]⟩
    cases hv : verifyToken now t with
    | none =>
      exact ⟨by simp [logout, hv], by simp [deleteLogout, blacklistToken, hv]⟩
    | some d =>
      exact ⟨by simp [logout, hv, blacklistToken, hdup],
             by simp [deleteLogout, blacklistToken, hv, hdup]⟩

/-- Witness for the amended C9 statement: a fresh valid token is revoked
until its exp claim 4000 (the route: for a fixed hour); the expired
sample token makes both paths fail; and a second logout of the same
still-valid token, whose row is already in the table, fails too. -/
theorem C9_amended_logout_witness :
    (logout 100 vTok emptySt
        = some { emptySt with jwtBlacklist :=
            emptySt.jwtBlacklist ++ [⟨vTok.str, 4000⟩] }
     ∧ deleteLogout 100 (some vTok) emptySt
        = (.success,
           { emptySt with jwtBlacklist :=
               emptySt.jwtBlacklist ++ [⟨vTok.str, 100 + 3600⟩] }))
    ∧ (logout 200 exTok emptySt = none
       ∧ (deleteLogout 200 (some exTok) emptySt).1 = .internalError)
    ∧ (logout 100 vTok dupSt = none
       ∧ (deleteLogout 100 (some vTok) dupSt).1 = .internalError) :=
  ⟨(C9_amended_logout_requires_valid_token 100 vTok emptySt).1 vTok.payload
      (by decide) (by decide),
   (C9_amended_logout_requires_valid_token 200 exTok emptySt).2.1 (by decide),
   (C9_amended_logout_requires_valid_token 100 vTok dupSt).2.2
      ⟨⟨"tok4", 5000⟩, by decide, by decide⟩⟩

end AKMS

